import Mathlib

/-!
Shallow embedding of the `use-toasts` widget (src/src/App.tsx).

The widget is a React provider holding a list of toast entries plus a
mount-guard. We embed:
* `ToastPayload` / `ExtendedToastPayload` — the data model (the `type`
  field is modelled as a `String` so that invalid runtime values are
  representable, as the source performs no validation);
* `ToastObject` — an `ExtendedToastPayload` together with an allocation
  token `ref` standing for JavaScript object identity: every evaluation of
  the object literal in `dispatchToast` yields a fresh reference, and the
  scheduled removal filters with `!==`, i.e. by `ref`;
* `ProviderState` — the provider component state: the `toasts` list, the
  pending `setTimeout` callbacks (`timers`, with absolute fire time), the
  `mountRef` flag maintained by `useIsMounted`, and the allocation counter;
* the operations `dispatchToast`, `dismissToast`, and timer expiry, plus
  a small operational model of JavaScript property access / calls for the
  context default value and the `toastDataMap` lookup.
-/

namespace UseToasts

/-- The `ToastPayload` type from the source; `type` is a string union there, kept as
`String` here because the runtime performs no validation. `dismissTime?` is
the optional per-call override. -/
structure ToastPayload where
  type : String
  message : String
  dismissTime : Option Nat
deriving Repr, DecidableEq

/-- The source type `ExtendedToastPayload = ToastPayload & \x7b id: number \x7d`; `id` is
the value of `new Date().valueOf()` at enqueue time. -/
structure ExtendedToastPayload where
  type : String
  message : String
  dismissTime : Option Nat
  id : Nat
deriving Repr, DecidableEq

/-- A JavaScript object holding an `ExtendedToastPayload`: `ref` models the
identity of the object created by the literal in `dispatchToast`, used by
the scheduled removal via the strict inequality `!==`. -/
structure ToastObject where
  ref : Nat
  payload : ExtendedToastPayload
deriving Repr, DecidableEq

/-- A pending `setTimeout` callback scheduled by `dispatchToast`: it fires
at absolute time `fireAt` and removes the captured object (by reference). -/
structure Timer where
  fireAt : Nat
  targetRef : Nat
deriving Repr, DecidableEq

/-- The provider component state: React state `toasts`, the pending timers,
the `mountRef.current` flag of `useIsMounted`, and the allocation counter
supplying fresh object references. -/
structure ProviderState where
  toasts : List ToastObject
  timers : List Timer
  mounted : Bool
  nextRef : Nat
deriving Repr, DecidableEq

/-- Provider state right after mount (`useLayoutEffect` has set
`mountRef.current = true`, state initialised to `[]`). -/
def initState : ProviderState :=
  { toasts := [], timers := [], mounted := true, nextRef := 0 }

/-- Tearing the provider down: the `useLayoutEffect` cleanup sets
`mountRef.current = false`. -/
def unmount (s : ProviderState) : ProviderState :=
  { s with mounted := false }

/-- The default of the `dismissTime` prop in `ToastProvider`. -/
def defaultDismissTime : Nat := 2000

/-- The setter returned by `useSafeDispatch(setToasts)`: applies the state update only while the
mount flag is set, otherwise returns without touching state. -/
def safeSetToasts (s : ProviderState) (f : List ToastObject → List ToastObject) :
    ProviderState :=
  if s.mounted then { s with toasts := f s.toasts } else s

/-- The object literal `\x7b ...payload, id: new Date().valueOf() \x7d`
evaluated at time `now`, allocated at reference `r`. -/
def extendObj (r : Nat) (now : Nat) (p : ToastPayload) : ToastObject :=
  { ref := r
    payload :=
      { type := p.type, message := p.message, dismissTime := p.dismissTime
        id := now } }

/-- The `dispatchToast` callback for a provider configured with default delay `d`,
invoked at clock time `now`: computes
`realDismissTime = payload.dismissTime ?? dismissTime`, allocates the
extended payload object, prepends it through the mount-guarded setter, and
schedules one removal `realDismissTime` milliseconds later. `setTimeout`
itself is called unconditionally; only the state updates are guarded. -/
def dispatchToast (d : Nat) (now : Nat) (p : ToastPayload) (s : ProviderState) :
    ProviderState :=
  let realDismissTime := p.dismissTime.getD d
  let e := extendObj s.nextRef now p
  let s1 := { s with nextRef := s.nextRef + 1 }
  let s2 := safeSetToasts s1 (fun old => e :: old)
  { s2 with timers := s2.timers ++ [{ fireAt := now + realDismissTime, targetRef := e.ref }] }

/-- The `dismissToast(id)` callback: filters out every toast whose `id` equals the
argument. The source calls the raw `setToasts` here, not the mount-guarded
`safeSetToasts`, so the filter applies regardless of the mount flag. -/
def dismissToast (i : Nat) (s : ProviderState) : ProviderState :=
  { s with toasts := s.toasts.filter (fun t => t.payload.id ≠ i) }

/-- A pending timer with target reference `r` fires: its callback runs the
mount-guarded update `oldToasts.filter ((. !== extendPayload))`, and the
timer leaves the pending set. If no such timer is pending, nothing
happens. -/
def expireTimer (r : Nat) (s : ProviderState) : ProviderState :=
  if s.timers.any (fun tm => tm.targetRef = r) then
    let s1 := safeSetToasts s (fun old => old.filter (fun e => e.ref ≠ r))
    { s1 with timers := s1.timers.filter (fun tm => tm.targetRef ≠ r) }
  else s

/-- Let the clock reach time `t`: every pending timer whose fire time has
elapsed fires (one-shot). -/
def runDueTimers (t : Nat) (s : ProviderState) : ProviderState :=
  (s.timers.filter (fun tm => tm.fireAt ≤ t)).foldl
    (fun st tm => expireTimer tm.targetRef st) s

/-- The alphabet of store operations visible in the source: enqueue at a
clock time, expiry of a pending timer, explicit dismissal by id. -/
inductive Op where
  | enqueue (now : Nat) (p : ToastPayload)
  | expire (r : Nat)
  | dismiss (i : Nat)
deriving Repr, DecidableEq

/-- Apply one operation to the provider state (`d` is the configured
default delay). -/
def applyOp (d : Nat) (s : ProviderState) : Op → ProviderState
  | Op.enqueue now p => dispatchToast d now p s
  | Op.expire r => expireTimer r s
  | Op.dismiss i => dismissToast i s

/-- Run a sequence of operations. -/
def runOps (d : Nat) (s : ProviderState) (ops : List Op) : ProviderState :=
  ops.foldl (applyOp d) s

/-! ### A small operational model of the JavaScript fragments

`ToastContext` is created with `\x7b\x7d as ToastContextValue`: the default
value is an empty object, so both function-valued properties read as
`undefined`. Calling `undefined` raises a `TypeError`; we model outcomes of
such evaluations with `JsOutcome`. -/

/-- Outcome of evaluating a JavaScript expression that may throw a
`TypeError` (calling `undefined`, reading a property of `undefined`). -/
inductive JsOutcome (α : Type) where
  | ok : α → JsOutcome α
  | typeError : JsOutcome α
deriving Repr

/-- The context value: its two properties are functions over the provider
state; an absent property (`undefined`) is `none`. -/
structure ToastContextValue where
  dispatchToast : Option (ToastPayload → ProviderState → ProviderState)
  dismissToast : Option (Nat → ProviderState → ProviderState)

/-- The default value handed to `React.createContext`:
`\x7b\x7d as ToastContextValue`, an empty object with no properties. -/
def toastContextDefault : ToastContextValue :=
  { dispatchToast := none, dismissToast := none }

/-- The hook `useToasts()` returns the nearest provider value, or the context
default when no provider is in scope. -/
def useToasts (provided : Option ToastContextValue) : ToastContextValue :=
  provided.getD toastContextDefault

/-- Calling a property that may be `undefined`: `undefined(...)` throws a
`TypeError`; a function property is applied. -/
def callJsFunction {α β : Type} (f : Option (α → β)) (x : α) : JsOutcome β :=
  match f with
  | none => JsOutcome.typeError
  | some g => JsOutcome.ok (g x)

/-! ### The default `Toast` renderer and `toastDataMap` -/

/-- One entry of `toastDataMap`. -/
structure ToastStyle where
  light : String
  dark : String
  icon : String
deriving Repr, DecidableEq

/-- The `toastDataMap` object from the source; indexing with a key outside the four
declared ones yields `undefined`, i.e. `none`. -/
def toastDataMap : String → Option ToastStyle
  | "success" => some { light := "#CBF8B3", dark := "#0B5B1D", icon := "✅" }
  | "error" => some { light := "#FFC7AD", dark := "#7A0925", icon := "❌" }
  | "warning" => some { light := "#FFF1A6", dark := "#7A5606", icon := "⚠️" }
  | "info" => some { light := "#B4ECFE", dark := "#0D3378", icon := "ℹ️" }
  | _ => none

/-- The visual output of the default `Toast` component, as far as styling
and content determine it. -/
structure RenderedToast where
  borderColor : String
  background : String
  textColor : String
  icon : String
  message : String
deriving Repr, DecidableEq

namespace Toast

/-- Rendering the default `Toast` component: it evaluates
`toastDataMap[type].dark`, `toastDataMap[type].light` and
`toastDataMap[type].icon`; when `toastDataMap[type]` is `undefined` the
first property access throws a `TypeError`. -/
def render (type message : String) : JsOutcome RenderedToast :=
  match toastDataMap type with
  | none => JsOutcome.typeError
  | some st =>
      JsOutcome.ok
        { borderColor := st.dark, background := st.light, textColor := st.dark
          icon := st.icon, message := message }

end Toast

/-- A sample payload used to instantiate universal statements. -/
def samplePayload : ToastPayload :=
  { type := "info", message := "hi", dismissTime := none }

/-- The payload of the spec scenario in section 8. -/
def successOk : ToastPayload :=
  { type := "success", message := "ok", dismissTime := none }

/-! ### Basic unfolding lemmas about the operations -/

theorem safeSetToasts_toasts (s : ProviderState) (f : List ToastObject → List ToastObject) :
    (safeSetToasts s f).toasts = if s.mounted then f s.toasts else s.toasts := by
  unfold safeSetToasts; split <;> rfl

theorem safeSetToasts_timers (s : ProviderState) (f : List ToastObject → List ToastObject) :
    (safeSetToasts s f).timers = s.timers := by
  unfold safeSetToasts; split <;> rfl

theorem safeSetToasts_mounted (s : ProviderState) (f : List ToastObject → List ToastObject) :
    (safeSetToasts s f).mounted = s.mounted := by
  unfold safeSetToasts; split <;> rfl

theorem safeSetToasts_nextRef (s : ProviderState) (f : List ToastObject → List ToastObject) :
    (safeSetToasts s f).nextRef = s.nextRef := by
  unfold safeSetToasts; split <;> rfl

theorem extendObj_ref (r now : Nat) (p : ToastPayload) : (extendObj r now p).ref = r := rfl

theorem extendObj_id (r now : Nat) (p : ToastPayload) :
    (extendObj r now p).payload.id = now := rfl

theorem dispatchToast_toasts (d now : Nat) (p : ToastPayload) (s : ProviderState) :
    (dispatchToast d now p s).toasts =
      if s.mounted then extendObj s.nextRef now p :: s.toasts else s.toasts := by
  simp [dispatchToast, safeSetToasts_toasts]

theorem dispatchToast_timers (d now : Nat) (p : ToastPayload) (s : ProviderState) :
    (dispatchToast d now p s).timers =
      s.timers ++ [{ fireAt := now + p.dismissTime.getD d, targetRef := s.nextRef }] := by
  simp [dispatchToast, safeSetToasts_timers, extendObj_ref]

theorem dispatchToast_mounted (d now : Nat) (p : ToastPayload) (s : ProviderState) :
    (dispatchToast d now p s).mounted = s.mounted := by
  simp [dispatchToast, safeSetToasts_mounted]

theorem dispatchToast_nextRef (d now : Nat) (p : ToastPayload) (s : ProviderState) :
    (dispatchToast d now p s).nextRef = s.nextRef + 1 := by
  simp [dispatchToast, safeSetToasts_nextRef]

theorem dismissToast_toasts (i : Nat) (s : ProviderState) :
    (dismissToast i s).toasts = s.toasts.filter (fun t => t.payload.id ≠ i) := rfl

theorem dismissToast_timers (i : Nat) (s : ProviderState) :
    (dismissToast i s).timers = s.timers := rfl

theorem dismissToast_mounted (i : Nat) (s : ProviderState) :
    (dismissToast i s).mounted = s.mounted := rfl

theorem dismissToast_nextRef (i : Nat) (s : ProviderState) :
    (dismissToast i s).nextRef = s.nextRef := rfl

theorem expireTimer_mounted (r : Nat) (s : ProviderState) :
    (expireTimer r s).mounted = s.mounted := by
  unfold expireTimer
  split
  . rw [safeSetToasts_mounted]
  . rfl

theorem expireTimer_nextRef (r : Nat) (s : ProviderState) :
    (expireTimer r s).nextRef = s.nextRef := by
  unfold expireTimer
  split
  . rw [safeSetToasts_nextRef]
  . rfl

theorem expireTimer_toasts_sublist (r : Nat) (s : ProviderState) :
    (expireTimer r s).toasts.Sublist s.toasts := by
  unfold expireTimer
  split
  . show (safeSetToasts s _).toasts.Sublist s.toasts
    rw [safeSetToasts_toasts]
    split
    . exact List.filter_sublist s.toasts
    . exact List.Sublist.refl s.toasts
  . exact List.Sublist.refl s.toasts

theorem mem_of_mem_expireTimer (r : Nat) (s : ProviderState) (e : ToastObject)
    (h : e ∈ (expireTimer r s).toasts) : e ∈ s.toasts :=
  (expireTimer_toasts_sublist r s).mem h

theorem expireTimer_kill (r : Nat) (s : ProviderState) (hm : s.mounted = true)
    (ht : ∃ tm ∈ s.timers, tm.targetRef = r) :
    ∀ e ∈ (expireTimer r s).toasts, e.ref ≠ r := by
  intro e he
  have hany : s.timers.any (fun tm => tm.targetRef = r) = true := by
    rcases ht with ⟨tm, htm, hr⟩
    exact List.any_eq_true.mpr ⟨tm, htm, by simp [hr]⟩
  unfold expireTimer at he
  rw [if_pos hany] at he
  rw [safeSetToasts_toasts, if_pos hm] at he
  simpa using (List.mem_filter.mp he).2

theorem expireTimer_timers_mem (r : Nat) (s : ProviderState) (tm : Timer)
    (htm : tm ∈ s.timers) (hr : tm.targetRef ≠ r) : tm ∈ (expireTimer r s).timers := by
  unfold expireTimer
  split
  . show tm ∈ (safeSetToasts s _).timers.filter _
    rw [safeSetToasts_timers]
    exact List.mem_filter.mpr ⟨htm, by simpa using hr⟩
  . exact htm

theorem expireTimer_noop_unmounted (r : Nat) (s : ProviderState)
    (h : s.mounted = false) : (expireTimer r s).toasts = s.toasts := by
  unfold expireTimer
  split
  . rw [safeSetToasts_toasts, h]
    rfl
  . rfl

theorem dispatchToast_noop_unmounted (d now : Nat) (p : ToastPayload) (s : ProviderState)
    (h : s.mounted = false) : (dispatchToast d now p s).toasts = s.toasts := by
  rw [dispatchToast_toasts, h]
  rfl

/-! ### Claim C1 -/

/-- C1, as stated, is false: with no provider in scope `useToasts` returns
the context default `\x7b\x7d`, whose `dispatchToast` property is
`undefined`, and calling it throws a `TypeError` instead of returning
normally. Concretely, dispatching a well-formed payload outside the
provider does not evaluate to a normal return. -/
theorem C1_counterexample :
    ¬ ∃ f : ProviderState → ProviderState,
        callJsFunction (useToasts none).dispatchToast samplePayload = JsOutcome.ok f := by
  rintro ⟨f, h⟩
  simp [callJsFunction, useToasts, toastContextDefault] at h

/-- C1 (amended): for every payload, calling the dispatch function with no
provider in scope — i.e. through the default context value, an empty
object — throws a `TypeError` (the property is `undefined`), so no state
update is ever produced; it is a crash, not a silent no-op. -/
theorem C1_dispatch_outside_provider_throws (p : ToastPayload) :
    callJsFunction (useToasts none).dispatchToast p = JsOutcome.typeError := rfl

/-! ### Claim C2 -/

/-- C2, as stated, is false: rendering the default `Toast` component with
the invalid type `"bogus"` does not silently fall back — the lookup
`toastDataMap["bogus"]` is `undefined` and the property access
`toastDataMap[type].dark` throws a `TypeError`. -/
theorem C2_counterexample :
    toastDataMap "bogus" = none ∧
      ¬ ∃ out : RenderedToast, Toast.render "bogus" "hi" = JsOutcome.ok out := by
  refine ⟨rfl, ?_⟩
  rintro ⟨out, h⟩
  simp [Toast.render, toastDataMap] at h

/-- C2 (amended): a toast whose `type` matches no key of `toastDataMap` is
accepted by the enqueue path without validation (the entry is prepended as
usual), but rendering it with the default `Toast` component throws a
`TypeError` when the styling lookup dereferences `undefined` — a crash in
the renderer, not an undefined visual fallback. -/
theorem C2_invalid_type_render_throws (t msg : String) (d now : Nat) (s : ProviderState)
    (h : toastDataMap t = none) (hm : s.mounted = true) :
    Toast.render t msg = JsOutcome.typeError ∧
      (dispatchToast d now { type := t, message := msg, dismissTime := none } s).toasts =
        extendObj s.nextRef now { type := t, message := msg, dismissTime := none } ::
          s.toasts := by
  constructor
  . simp [Toast.render, h]
  . rw [dispatchToast_toasts, hm]
    rfl

/-- Witness for C2 (amended) at `type := "bogus"` on the freshly mounted
provider. -/
theorem C2_invalid_type_render_throws_witness :
    Toast.render "bogus" "hi" = JsOutcome.typeError ∧
      (dispatchToast 2000 3 { type := "bogus", message := "hi", dismissTime := none }
          initState).toasts =
        extendObj 0 3 { type := "bogus", message := "hi", dismissTime := none } :: [] :=
  C2_invalid_type_render_throws "bogus" "hi" 2000 3 initState rfl rfl

/-! ### Claim C4 -/

/-- C4, as stated, is false: not every state mutation is wrapped by the
mount-guard. `dismissToast` calls the raw state setter, so invoking it
after teardown still mutates the collection: enqueue a toast at time 7,
unmount, dismiss id 7 — the toast list changes from one entry to none. -/
theorem C4_counterexample :
    (dismissToast 7 (unmount (dispatchToast 2000 7 samplePayload initState))).toasts ≠
      (unmount (dispatchToast 2000 7 samplePayload initState)).toasts := by
  decide

/-- C4 (amended): after the provider is torn down, every pending timer
callback is a no-op on the collection and the enqueue path mutates no
state, because both go through the mount-guarded dispatcher; `dismissToast`
alone is not wrapped by the mount-guard, so an explicit dismissal after
teardown still filters the collection. -/
theorem C4_unmounted_guarded_noop (s : ProviderState) (h : s.mounted = false)
    (r d now : Nat) (p : ToastPayload) :
    (expireTimer r s).toasts = s.toasts ∧ (dispatchToast d now p s).toasts = s.toasts :=
  ⟨expireTimer_noop_unmounted r s h, dispatchToast_noop_unmounted d now p s h⟩

/-- Witness for C4 (amended): on the torn-down provider holding one toast,
the pending timer fires as a no-op and a further dispatch adds nothing. -/
theorem C4_unmounted_guarded_noop_witness :
    (unmount (dispatchToast 2000 7 samplePayload initState)).mounted = false ∧
      (expireTimer 0 (unmount (dispatchToast 2000 7 samplePayload initState))).toasts =
        (unmount (dispatchToast 2000 7 samplePayload initState)).toasts ∧
      (dispatchToast 2000 8 samplePayload
          (unmount (dispatchToast 2000 7 samplePayload initState))).toasts =
        (unmount (dispatchToast 2000 7 samplePayload initState)).toasts :=
  ⟨by decide,
    (C4_unmounted_guarded_noop (unmount (dispatchToast 2000 7 samplePayload initState))
      (by decide) 0 2000 8 samplePayload).1,
    (C4_unmounted_guarded_noop (unmount (dispatchToast 2000 7 samplePayload initState))
      (by decide) 0 2000 8 samplePayload).2⟩

/-! ### Claim C5 -/

/-- C5: on the mounted provider, `dispatchToast` assigns the time-based
identifier `now`, computes the effective delay as the payload override when
present and the configured default otherwise, prepends the new entry to the
collection immediately, and appends exactly one pending removal for that
entry, firing after the effective delay. -/
theorem C5_enqueue_shape (d now : Nat) (p : ToastPayload) (s : ProviderState)
    (h : s.mounted = true) :
    (dispatchToast d now p s).toasts = extendObj s.nextRef now p :: s.toasts ∧
      (extendObj s.nextRef now p).payload.id = now ∧
      (dispatchToast d now p s).timers =
        s.timers ++ [{ fireAt := now + p.dismissTime.getD d, targetRef := s.nextRef }] ∧
      p.dismissTime.getD d = (match p.dismissTime with | some t => t | none => d) := by
  refine ⟨?_, extendObj_id s.nextRef now p, dispatchToast_timers d now p s, ?_⟩
  . rw [dispatchToast_toasts, h]
    rfl
  . cases p.dismissTime <;> rfl

/-- Witness for C5 on the freshly mounted provider, with a payload carrying
a 500 ms override. -/
theorem C5_enqueue_shape_witness :
    (dispatchToast 2000 9 { type := "info", message := "hi", dismissTime := some 500 }
        initState).toasts =
      extendObj 0 9 { type := "info", message := "hi", dismissTime := some 500 } :: [] ∧
      (extendObj 0 9
        { type := "info", message := "hi", dismissTime := some 500 }).payload.id = 9 ∧
      (dispatchToast 2000 9 { type := "info", message := "hi", dismissTime := some 500 }
          initState).timers = [] ++ [{ fireAt := 9 + 500, targetRef := 0 }] ∧
      (Option.getD (some 500) 2000 : Nat) = 500 :=
  C5_enqueue_shape 2000 9 { type := "info", message := "hi", dismissTime := some 500 }
    initState rfl

/-! ### Claim C6 -/

theorem expireTimer_mem_keep (r : Nat) (s : ProviderState) (e : ToastObject)
    (he : e ∈ s.toasts) (hr : e.ref ≠ r) : e ∈ (expireTimer r s).toasts := by
  unfold expireTimer
  split
  . show e ∈ (safeSetToasts s _).toasts
    rw [safeSetToasts_toasts]
    split
    . exact List.mem_filter.mpr ⟨he, by simpa using hr⟩
    . exact he
  . exact he

/-- C6: enqueuing the same payload twice on the mounted provider yields two
entries with distinct object references; the deferred removal of the first
entry compares by reference, removing that entry and never the second, and
— when the two time-based identifiers differ — dismissing the first
identifier removes the first entry while the second survives. -/
theorem C6_identical_payloads_independent (d now1 now2 : Nat) (p : ToastPayload)
    (s : ProviderState) (hm : s.mounted = true) :
    (extendObj s.nextRef now1 p).ref ≠ (extendObj (s.nextRef + 1) now2 p).ref ∧
      (dispatchToast d now2 p (dispatchToast d now1 p s)).toasts =
        extendObj (s.nextRef + 1) now2 p :: extendObj s.nextRef now1 p :: s.toasts ∧
      extendObj s.nextRef now1 p ∉
        (expireTimer s.nextRef
          (dispatchToast d now2 p (dispatchToast d now1 p s))).toasts ∧
      extendObj (s.nextRef + 1) now2 p ∈
        (expireTimer s.nextRef
          (dispatchToast d now2 p (dispatchToast d now1 p s))).toasts ∧
      (now1 ≠ now2 →
        extendObj s.nextRef now1 p ∉
          (dismissToast now1 (dispatchToast d now2 p (dispatchToast d now1 p s))).toasts ∧
        extendObj (s.nextRef + 1) now2 p ∈
          (dismissToast now1 (dispatchToast d now2 p (dispatchToast d now1 p s))).toasts) := by
  have hm1 : (dispatchToast d now1 p s).mounted = true := by
    rw [dispatchToast_mounted]; exact hm
  have hm2 : (dispatchToast d now2 p (dispatchToast d now1 p s)).mounted = true := by
    rw [dispatchToast_mounted]; exact hm1
  have h2 : (dispatchToast d now2 p (dispatchToast d now1 p s)).toasts =
      extendObj (s.nextRef + 1) now2 p :: extendObj s.nextRef now1 p :: s.toasts := by
    rw [dispatchToast_toasts, if_pos hm1, dispatchToast_nextRef, dispatchToast_toasts,
      if_pos hm]
  have htm : ∃ tm ∈ (dispatchToast d now2 p (dispatchToast d now1 p s)).timers,
      tm.targetRef = s.nextRef := by
    refine ⟨{ fireAt := now1 + p.dismissTime.getD d, targetRef := s.nextRef }, ?_, rfl⟩
    rw [dispatchToast_timers, dispatchToast_timers]
    simp
  refine ⟨by simp [extendObj_ref], h2, ?_, ?_, ?_⟩
  . intro hmem
    exact expireTimer_kill s.nextRef _ hm2 htm _ hmem (extendObj_ref s.nextRef now1 p)
  . refine expireTimer_mem_keep s.nextRef _ _ ?_ (by simp [extendObj_ref])
    rw [h2]
    exact List.mem_cons_self _ _
  . intro hne
    constructor
    . intro hmem
      rw [dismissToast_toasts] at hmem
      have := (List.mem_filter.mp hmem).2
      simp [extendObj_id] at this
    . rw [dismissToast_toasts]
      refine List.mem_filter.mpr ⟨?_, ?_⟩
      . rw [h2]; exact List.mem_cons_self _ _
      . simpa [extendObj_id] using hne.symm

/-- Witness for C6: two enqueues of the sample payload at times 5 and 6 on
the fresh provider; expiring the first timer keeps the second entry and
drops the first, and dismissing identifier 5 likewise. -/
theorem C6_identical_payloads_independent_witness :
    extendObj 0 5 samplePayload ∉
      (expireTimer 0 (dispatchToast 2000 6 samplePayload
        (dispatchToast 2000 5 samplePayload initState))).toasts ∧
      extendObj 1 6 samplePayload ∈
        (expireTimer 0 (dispatchToast 2000 6 samplePayload
          (dispatchToast 2000 5 samplePayload initState))).toasts ∧
      extendObj 0 5 samplePayload ∉
        (dismissToast 5 (dispatchToast 2000 6 samplePayload
          (dispatchToast 2000 5 samplePayload initState))).toasts ∧
      extendObj 1 6 samplePayload ∈
        (dismissToast 5 (dispatchToast 2000 6 samplePayload
          (dispatchToast 2000 5 samplePayload initState))).toasts := by
  obtain ⟨-, -, h3, h4, h5⟩ :=
    C6_identical_payloads_independent 2000 5 6 samplePayload initState rfl
  exact ⟨h3, h4, (h5 (by decide)).1, (h5 (by decide)).2⟩

/-! ### Claim C8 -/

/-- C8: `dismissToast i` immediately removes every entry carrying
identifier `i` while keeping every other entry, leaves the pending timers
untouched (removal happens before the timer fires), and is a no-op —
returning the state unchanged — when no entry carries identifier `i`. -/
theorem C8_dismiss_spec (s : ProviderState) (i : Nat) :
    (∀ e ∈ (dismissToast i s).toasts, e.payload.id ≠ i) ∧
      (∀ e ∈ s.toasts, e.payload.id ≠ i → e ∈ (dismissToast i s).toasts) ∧
      (dismissToast i s).timers = s.timers ∧
      ((∀ e ∈ s.toasts, e.payload.id ≠ i) → dismissToast i s = s) := by
  refine ⟨?_, ?_, rfl, ?_⟩
  . intro e he
    simpa using (List.mem_filter.mp he).2
  . intro e he hne
    exact List.mem_filter.mpr ⟨he, by simpa using hne⟩
  . intro habs
    have : s.toasts.filter (fun t => t.payload.id ≠ i) = s.toasts :=
      List.filter_eq_self.mpr (fun e he => by simpa using habs e he)
    unfold dismissToast
    rw [this]

/-- Witness for C8: dismissing the absent identifier 9 on a provider
holding one toast with identifier 7 is the identity. -/
theorem C8_dismiss_spec_witness :
    dismissToast 9 (dispatchToast 2000 7 samplePayload initState) =
      dispatchToast 2000 7 samplePayload initState :=
  (C8_dismiss_spec (dispatchToast 2000 7 samplePayload initState) 9).2.2.2 (by decide)

/-! ### Claim C7 -/

theorem foldl_expire_removes (r : Nat) :
    ∀ (L : List Timer) (s : ProviderState), s.mounted = true →
      ((∃ tm ∈ L, tm.targetRef = r) ∧ (∃ tm ∈ s.timers, tm.targetRef = r) ∨
        ∀ e ∈ s.toasts, e.ref ≠ r) →
      ∀ e ∈ (L.foldl (fun st tm => expireTimer tm.targetRef st) s).toasts, e.ref ≠ r := by
  intro L
  induction L with
  | nil =>
      intro s hm hd e he
      rcases hd with ⟨⟨tm, htm, _⟩, _⟩ | habs
      . exact absurd htm (List.not_mem_nil tm)
      . exact habs e he
  | cons tm0 L ih =>
      intro s hm hd e he
      rw [List.foldl_cons] at he
      have hm1 : (expireTimer tm0.targetRef s).mounted = true := by
        rw [expireTimer_mounted]; exact hm
      rcases hd with ⟨⟨tm, htm, htmr⟩, ⟨tmp, htmp, htmpr⟩⟩ | habs
      . by_cases h0 : tm0.targetRef = r
        . refine ih (expireTimer tm0.targetRef s) hm1 (Or.inr ?_) e he
          intro e1 he1
          rw [h0] at he1
          exact expireTimer_kill r s hm ⟨tmp, htmp, htmpr⟩ e1 he1
        . refine ih (expireTimer tm0.targetRef s) hm1
            (Or.inl ⟨⟨tm, ?_, htmr⟩, ⟨tmp, ?_, htmpr⟩⟩) e he
          . rcases List.mem_cons.mp htm with h | h
            . rw [h] at htmr
              exact absurd htmr h0
            . exact h
          . refine expireTimer_timers_mem tm0.targetRef s tmp htmp ?_
            intro hc
            rw [hc] at htmpr
            exact h0 htmpr
      . refine ih _ hm1 (Or.inr ?_) e he
        intro e1 he1
        exact habs e1 (mem_of_mem_expireTimer _ _ _ he1)

/-- C7: on the mounted provider, once the fire time of a pending removal
has elapsed, no toast carrying the target reference of that removal remains
in the collection. In the concrete spec scenario — `success`/`ok` enqueued at
time 0 with no override under the default 2000 ms provider — the entry is
in the collection at time 0 and the collection is empty once the clock has
reached 2001 ms. -/
theorem C7_eventual_removal :
    (∀ (t : Nat) (s : ProviderState) (tm : Timer), s.mounted = true → tm ∈ s.timers →
        tm.fireAt ≤ t → ∀ e ∈ (runDueTimers t s).toasts, e.ref ≠ tm.targetRef) ∧
      (dispatchToast defaultDismissTime 0 successOk initState).toasts =
        [extendObj 0 0 successOk] ∧
      (runDueTimers 2001
          (dispatchToast defaultDismissTime 0 successOk initState)).toasts = [] := by
  refine ⟨?_, by decide, by decide⟩
  intro t s tm hm htm hle
  unfold runDueTimers
  exact foldl_expire_removes tm.targetRef _ s hm
    (Or.inl ⟨⟨tm, List.mem_filter.mpr ⟨htm, by simpa using hle⟩, rfl⟩, ⟨tm, htm, rfl⟩⟩)

/-- Witness for C7: the spec scenario entry (reference 0) is gone from the
collection once the clock reaches 2001 ms. -/
theorem C7_eventual_removal_witness :
    extendObj 0 0 successOk ∉
      (runDueTimers 2001 (dispatchToast defaultDismissTime 0 successOk initState)).toasts :=
  fun hmem =>
    C7_eventual_removal.1 2001 (dispatchToast defaultDismissTime 0 successOk initState)
      { fireAt := 2000, targetRef := 0 } (by decide) (by decide) (by decide)
      (extendObj 0 0 successOk) hmem rfl

/-! ### Claim C10 -/

/-- C10: an entry of the collection survives `dismissToast i` exactly when
its identifier differs from `i`; in particular, when several entries share
the identifier (as same-millisecond enqueues produce), one dismissal
removes all of them. -/
theorem C10_dismiss_removes_all (s : ProviderState) (i : Nat) (e : ToastObject)
    (h : e ∈ s.toasts) :
    e ∈ (dismissToast i s).toasts ↔ e.payload.id ≠ i := by
  constructor
  . intro hmem
    simpa using (List.mem_filter.mp hmem).2
  . intro hne
    exact List.mem_filter.mpr ⟨h, by simpa using hne⟩

/-- The state after two same-millisecond enqueues: two entries share
identifier 5. -/
def sameMsState : ProviderState :=
  runOps 2000 initState [Op.enqueue 5 samplePayload, Op.enqueue 5 samplePayload]

/-- Witness for C10 on the state with two identifier-5 entries: neither the
older entry (reference 0) nor the newer one (reference 1) survives
`dismissToast 5`. -/
theorem C10_dismiss_removes_all_witness :
    ((extendObj 0 5 samplePayload ∈ sameMsState.toasts ∧
        extendObj 1 5 samplePayload ∈ sameMsState.toasts) ∧
      ¬ extendObj 0 5 samplePayload ∈ (dismissToast 5 sameMsState).toasts ∧
      ¬ extendObj 1 5 samplePayload ∈ (dismissToast 5 sameMsState).toasts) :=
  ⟨⟨by decide, by decide⟩,
    fun hmem =>
      ((C10_dismiss_removes_all sameMsState 5 (extendObj 0 5 samplePayload)
        (by decide)).mp hmem) (by decide),
    fun hmem =>
      ((C10_dismiss_removes_all sameMsState 5 (extendObj 1 5 samplePayload)
        (by decide)).mp hmem) (by decide)⟩

/-! ### Claim C3 -/

/-- The identifiers currently held in the collection. -/
def idsOf (s : ProviderState) : List Nat := s.toasts.map (fun e => e.payload.id)

/-- Whether one operation respects identifier freshness: an enqueue must
happen at a clock time whose value is not already an identifier in the
collection (the other operations always qualify). -/
def freshOk (s : ProviderState) : Op → Bool
  | Op.enqueue now _ => s.toasts.all (fun e => e.payload.id != now)
  | _ => true

/-- Whether a whole operation sequence respects identifier freshness, step
by step. -/
def freshOps (d : Nat) (s : ProviderState) : List Op → Bool
  | [] => true
  | op :: rest => freshOk s op && freshOps d (applyOp d s op) rest

theorem freshOps_append (d : Nat) :
    ∀ (l1 l2 : List Op) (s : ProviderState), freshOps d s (l1 ++ l2) = true →
      freshOps d s l1 = true := by
  intro l1
  induction l1 with
  | nil => intro l2 s _; rfl
  | cons op rest ih =>
      intro l2 s h
      rw [List.cons_append, freshOps, Bool.and_eq_true] at h
      rw [freshOps, Bool.and_eq_true]
      exact ⟨h.1, ih l2 _ h.2⟩

theorem nodup_applyOp (d : Nat) (s : ProviderState) (op : Op)
    (h : (idsOf s).Nodup) (hfresh : freshOk s op = true) :
    (idsOf (applyOp d s op)).Nodup := by
  cases op with
  | enqueue now p =>
      show (idsOf (dispatchToast d now p s)).Nodup
      unfold idsOf
      rw [dispatchToast_toasts]
      by_cases hm : s.mounted
      . rw [if_pos hm, List.map_cons]
        refine List.nodup_cons.mpr ⟨?_, h⟩
        intro hmem
        obtain ⟨e0, he0, hid⟩ := List.mem_map.mp hmem
        have := List.all_eq_true.mp hfresh e0 he0
        rw [extendObj_id] at hid
        simp [hid] at this
      . rw [if_neg hm]
        exact h
  | expire r =>
      show (idsOf (expireTimer r s)).Nodup
      exact h.sublist ((expireTimer_toasts_sublist r s).map _)
  | dismiss i =>
      show (idsOf (dismissToast i s)).Nodup
      unfold idsOf
      rw [dismissToast_toasts]
      exact h.sublist ((List.filter_sublist s.toasts).map _)

theorem nodup_runOps (d : Nat) :
    ∀ (ops : List Op) (s : ProviderState), (idsOf s).Nodup →
      freshOps d s ops = true → (idsOf (runOps d s ops)).Nodup := by
  intro ops
  induction ops with
  | nil => intro s h _; exact h
  | cons op rest ih =>
      intro s h hf
      rw [freshOps, Bool.and_eq_true] at hf
      show (idsOf (runOps d (applyOp d s op) rest)).Nodup
      exact ih (applyOp d s op) (nodup_applyOp d s op h hf.1) hf.2

/-- C3, as stated, is false: identifiers are clock readings, so two
enqueues within the same millisecond (here both at clock value 5) leave the
collection with two entries carrying the same identifier. -/
theorem C3_counterexample : ¬ (idsOf sameMsState).Nodup := by decide

/-- C3 (amended): provided every enqueue happens at a clock time whose
value is not already an identifier in the collection (as when enqueues fall
in distinct milliseconds), the collection holds pairwise-distinct
identifiers after every step of the sequence; the code itself does nothing
to enforce this freshness. -/
theorem C3_ids_nodup (d : Nat) (ops pre suf : List Op)
    (hfresh : freshOps d initState ops = true) (hsplit : ops = pre ++ suf) :
    (idsOf (runOps d initState pre)).Nodup := by
  subst hsplit
  exact nodup_runOps d pre initState (by decide) (freshOps_append d pre suf initState hfresh)

/-- Witness for C3 (amended): two enqueues at distinct clock times 1 and 2,
checked after each of the three steps of the run. -/
theorem C3_ids_nodup_witness :
    (idsOf (runOps 2000 initState
      [Op.enqueue 1 samplePayload, Op.enqueue 2 samplePayload])).Nodup :=
  C3_ids_nodup 2000 [Op.enqueue 1 samplePayload, Op.enqueue 2 samplePayload]
    [Op.enqueue 1 samplePayload, Op.enqueue 2 samplePayload] [] (by decide) rfl

/-! ### Claim C9 -/

/-- The collection is ordered newest-first: object references are allocated
in increasing order, every held reference is below the allocation counter,
and along the list the references strictly decrease. -/
def refsDescending (s : ProviderState) : Prop :=
  (∀ e ∈ s.toasts, e.ref < s.nextRef) ∧
    (s.toasts.map (fun e => e.ref)).Pairwise (fun a b => b < a)

theorem refsDescending_applyOp (d : Nat) (s : ProviderState) (op : Op)
    (h : refsDescending s) : refsDescending (applyOp d s op) := by
  obtain ⟨hb, hp⟩ := h
  cases op with
  | enqueue now p =>
      constructor
      . intro e he
        rw [show applyOp d s (Op.enqueue now p) = dispatchToast d now p s from rfl,
          dispatchToast_toasts] at he
        rw [show applyOp d s (Op.enqueue now p) = dispatchToast d now p s from rfl,
          dispatchToast_nextRef]
        by_cases hm : s.mounted
        . rw [if_pos hm] at he
          rcases List.mem_cons.mp he with rfl | h1
          . rw [extendObj_ref]
            omega
          . exact Nat.lt_succ_of_lt (hb e h1)
        . rw [if_neg hm] at he
          exact Nat.lt_succ_of_lt (hb e he)
      . rw [show applyOp d s (Op.enqueue now p) = dispatchToast d now p s from rfl,
          dispatchToast_toasts]
        by_cases hm : s.mounted
        . rw [if_pos hm, List.map_cons]
          refine List.Pairwise.cons ?_ hp
          intro b hbmem
          obtain ⟨e1, he1, rfl⟩ := List.mem_map.mp hbmem
          rw [extendObj_ref]
          exact hb e1 he1
        . rw [if_neg hm]
          exact hp
  | expire r =>
      constructor
      . intro e he
        rw [show applyOp d s (Op.expire r) = expireTimer r s from rfl, expireTimer_nextRef]
        exact hb e (mem_of_mem_expireTimer r s e
          (by rw [show applyOp d s (Op.expire r) = expireTimer r s from rfl] at he; exact he))
      . exact List.Pairwise.sublist ((expireTimer_toasts_sublist r s).map _) hp
  | dismiss i =>
      constructor
      . intro e he
        rw [show applyOp d s (Op.dismiss i) = dismissToast i s from rfl,
          dismissToast_toasts] at he
        rw [show applyOp d s (Op.dismiss i) = dismissToast i s from rfl, dismissToast_nextRef]
        exact hb e (List.mem_filter.mp he).1
      . rw [show applyOp d s (Op.dismiss i) = dismissToast i s from rfl]
        show ((s.toasts.filter _).map _).Pairwise _
        exact List.Pairwise.sublist ((List.filter_sublist s.toasts).map _) hp

theorem refsDescending_runOps (d : Nat) :
    ∀ (ops : List Op) (s : ProviderState), refsDescending s →
      refsDescending (runOps d s ops) := by
  intro ops
  induction ops with
  | nil => intro s h; exact h
  | cons op rest ih =>
      intro s h
      exact ih (applyOp d s op) (refsDescending_applyOp d s op h)

/-- C9: enqueue prepends the freshly allocated entry at the front of the
mounted collection; explicit dismissal and timer expiry shrink the
collection to a sublist, preserving the relative order of the remaining
entries; and along any operation sequence from the fresh provider the
collection stays in strictly decreasing allocation order — newest first. -/
theorem C9_newest_first (d i r now : Nat) (p : ToastPayload) (s : ProviderState)
    (ops : List Op) :
    (s.mounted = true →
        (dispatchToast d now p s).toasts = extendObj s.nextRef now p :: s.toasts) ∧
      (dismissToast i s).toasts.Sublist s.toasts ∧
      (expireTimer r s).toasts.Sublist s.toasts ∧
      refsDescending (runOps d initState ops) := by
  refine ⟨?_, ?_, expireTimer_toasts_sublist r s, ?_⟩
  . intro hm
    rw [dispatchToast_toasts, if_pos hm]
  . rw [dismissToast_toasts]
    exact List.filter_sublist s.toasts
  . refine refsDescending_runOps d ops initState ⟨?_, ?_⟩
    . intro e he
      exact absurd he (List.not_mem_nil e)
    . exact List.Pairwise.nil

/-- Witness for C9: on the fresh provider, dispatching at time 5 prepends
the new entry in front of the empty collection. -/
theorem C9_newest_first_witness :
    (dispatchToast 2000 5 samplePayload initState).toasts =
      extendObj 0 5 samplePayload :: [] :=
  (C9_newest_first 2000 0 0 5 samplePayload initState []).1 rfl

end UseToasts
